import Mathlib

/-!
Shallow embedding of `kolibri/core/apps.py` (class `KolibriCoreConfig`).

The file models the three startup hooks of that module:

* `activate_pragmas_per_connection` — the per-connection SQLite tuner,
* `activate_pragmas_on_start` — the one-shot startup SQLite tuner,
* `check_redis_settings` — the Redis cache-settings reconciler.

Side effects (cursor executions, repair calls, client calls against the
Redis server, log warnings) are recorded as explicit traces.  The Redis
client calls can be made to raise a `redis` `ConnectionError` or an
arbitrary other exception through an explicit fault-injection record, so
that the two `except` clauses of `check_redis_settings` are part of the
model.
-/

/-- The two fixed SQL scripts the tuners execute.  Their text lives in
`kolibri.core.sqlite.pragmas`; the embedded module only passes them to the
cursor opaquely, so they are modelled as opaque tags. -/
inductive SqlScript
  | connectionPragmas
  | startPragmas
  deriving DecidableEq, Repr

/-- Modelled from the spec: the reserved alias of the notifications
database.  `kolibri.deployment.default.sqlite_db_names.NOTIFICATIONS` is
not under `src/`; the spec only requires it to be one specific reserved
name, so the concrete string is irrelevant to every claim. -/
def NOTIFICATIONS : String := "notifications"

/-- Observable actions a tuner performs against a database connection. -/
inductive DBAction
  | quickCheck
  | repair
  | execScript (s : SqlScript)
  | closeConnection
  deriving DecidableEq, Repr

/-- Outcome of the `PRAGMA quick_check` probe: either the string in
`fetchone()[0]`, or a raised `DatabaseError`. -/
inductive ProbeOutcome
  | result (s : String)
  | dbError
  deriving DecidableEq, Repr

/-- The `broken_db` computation of `activate_pragmas_per_connection`:
`quick_check != "ok"`, or `True` when the probe raised `DatabaseError`. -/
def probeBroken : ProbeOutcome → Bool
  | ProbeOutcome.result s => s ≠ "ok"
  | ProbeOutcome.dbError => true

/-- `KolibriCoreConfig.activate_pragmas_per_connection`.  Inputs are the
connection's `vendor` and `alias` and the outcome of the quick-check
probe; the result is the ordered trace of actions performed. -/
def activate_pragmas_per_connection (vendor connAlias : String)
    (probe : ProbeOutcome) : List DBAction :=
  if vendor = "sqlite" then
    (if connAlias = NOTIFICATIONS then
      [DBAction.quickCheck] ++
        (if probeBroken probe then [DBAction.repair] else [])
    else []) ++ [DBAction.execScript SqlScript.connectionPragmas]
  else []

/-- `KolibriCoreConfig.activate_pragmas_on_start`.  Input is the default
connection's `vendor`; the result is the ordered trace of actions. -/
def activate_pragmas_on_start (vendor : String) : List DBAction :=
  if vendor = "sqlite" then
    [DBAction.execScript SqlScript.startPragmas, DBAction.closeConnection]
  else []

/-- The live, mutable configuration of the Redis server visible through
the settings helper: eviction policy, `maxmemory`, and used memory. -/
structure RedisState where
  policy : String
  maxmemory : Nat
  usedMemory : Nat
  deriving DecidableEq, Repr

/-- Behaviour injected for a single Redis client call: success, a raised
`redis.exceptions.ConnectionError`, or any other raised exception. -/
inductive Fault
  | ok
  | conn (msg : String)
  | other (msg : String)
  deriving DecidableEq, Repr

/-- Fault injection for each of the five helper calls that
`check_redis_settings` can issue, in source order. -/
structure Faults where
  get_maxmemory_policy : Fault
  set_maxmemory_policy : Fault
  get_maxmemory : Fault
  get_used_memory : Fault
  set_maxmemory : Fault
  deriving DecidableEq, Repr

/-- The all-successful fault assignment: no client call raises. -/
def Faults.noFaults : Faults :=
  ⟨Fault.ok, Fault.ok, Fault.ok, Fault.ok, Fault.ok⟩

/-- Client calls issued through `RedisSettingsHelper`. -/
inductive RCall
  | get_maxmemory_policy
  | set_maxmemory_policy (p : String)
  | get_maxmemory
  | get_used_memory
  | set_maxmemory (m : Nat)
  deriving DecidableEq, Repr

/-- The warnings `check_redis_settings` can log.  Messages whose text is a
fixed literal are tags; messages interpolating data carry it. -/
inductive LogMsg
  | policyWarning
  | usedMemoryWarning (used config : String)
  | noMaxmemoryWarning
  | finalWarning
  | connWarning (msg : String)
  | uncheckedWarning
  | exceptionDetail (msg : String)
  deriving DecidableEq, Repr

/-- One event of a reconciler run: a logged warning or a client call. -/
inductive Event
  | warn (m : LogMsg)
  | call (c : RCall)
  deriving DecidableEq, Repr

/-- How a reconciler run terminates: a normal return, or a raised
`RedisConnectionError` carrying the wrapped message. -/
inductive Outcome
  | normal
  | redisConnectionError (msg : String)
  deriving DecidableEq, Repr

/-- In-flight context of a run: current server state, the event trace so
far, and the helper's `changed` flag.  Modelled from the spec: the
`changed` flag lives in `kolibri.core.utils.cache.RedisSettingsHelper`,
which is not under `src/`; per the spec it starts false and is marked by
each corrective `set` call. -/
structure Ctx where
  st : RedisState
  trace : List Event
  changed : Bool
  deriving DecidableEq, Repr

/-- Result of a reconciler run: final server state, full event trace,
final `changed` flag, and the termination outcome. -/
structure RunResult where
  st : RedisState
  trace : List Event
  changed : Bool
  outcome : Outcome
  deriving DecidableEq, Repr

/-- Render `tenths` tenths as a decimal string with one decimal place. -/
def oneDecimal (tenths : Nat) : String :=
  toString (tenths / 10) ++ "." ++ toString (tenths % 10)

/-- Modelled from the spec: `kolibri.utils.data.bytes_for_humans` is not
under `src/`.  Binary (1024) scaling, largest unit where the value is at
least 1, one decimal place, units B/KB/MB/GB/TB/PB; plain byte counts
print as an integer with unit B (0 becomes "0B", 1536 becomes "1.5KB",
1048576 becomes "1.0MB"). -/
def bytes_for_humans (size : Nat) : String :=
  if size < 1024 then toString size ++ "B"
  else if size < 1024 ^ 2 then oneDecimal (size * 10 / 1024) ++ "KB"
  else if size < 1024 ^ 3 then oneDecimal (size * 10 / 1024 ^ 2) ++ "MB"
  else if size < 1024 ^ 4 then oneDecimal (size * 10 / 1024 ^ 3) ++ "GB"
  else if size < 1024 ^ 5 then oneDecimal (size * 10 / 1024 ^ 4) ++ "TB"
  else oneDecimal (size * 10 / 1024 ^ 5) ++ "PB"

/-- The `except ConnectionError` handler of `check_redis_settings`: log a
warning with the underlying message, then raise `RedisConnectionError`
wrapping the same message (via `raise_from`, preserving the cause). -/
def onConnectionError (c : Ctx) (msg : String) : RunResult :=
  ⟨c.st,
   c.trace ++ [Event.warn (LogMsg.connWarning ("Unable to connect to Redis: " ++ msg))],
   c.changed,
   Outcome.redisConnectionError ("Unable to connect to Redis: " ++ msg)⟩

/-- The `except Exception` handler of `check_redis_settings`: log the
fixed warning and then the exception itself; swallow the exception. -/
def onOtherError (c : Ctx) (msg : String) : RunResult :=
  ⟨c.st,
   c.trace ++ [Event.warn LogMsg.uncheckedWarning,
               Event.warn (LogMsg.exceptionDetail msg)],
   c.changed,
   Outcome.normal⟩

/-- Early-exit sequencing inside the `try` block: a step either produced
an updated context (`Sum.inl`, continue with the rest of the block) or a
handler already produced the run's result (`Sum.inr`, the raised
exception aborted the block). -/
def andThen : Ctx ⊕ RunResult → (Ctx → RunResult) → RunResult
  | Sum.inr r, _ => r
  | Sum.inl c, k => k c

/-- `KolibriCoreConfig.check_redis_settings`.  `cache_backend`,
`config_maxmemory` and `config_maxmemory_policy` are the three OPTIONS
values the source reads; `st` is the live Redis server; `f` injects the
behaviour of each client call.  Setter calls mark the helper's `changed`
flag and mutate the server state; a faulted call performs no server
mutation and transfers control to the matching `except` handler. -/
def check_redis_settings (cache_backend : String) (config_maxmemory : Nat)
    (config_maxmemory_policy : String) (st : RedisState) (f : Faults) :
    RunResult :=
  if cache_backend ≠ "redis" then ⟨st, [], false, Outcome.normal⟩
  else
    match f.get_maxmemory_policy with
    | Fault.conn m => onConnectionError ⟨st, [], false⟩ m
    | Fault.other m => onOtherError ⟨st, [], false⟩ m
    | Fault.ok =>
      let maxmemory_policy := st.policy
      let c1 : Ctx := ⟨st, [Event.call RCall.get_maxmemory_policy], false⟩
      andThen
        (if config_maxmemory_policy ≠ "" ∧ maxmemory_policy ≠ config_maxmemory_policy then
          match f.set_maxmemory_policy with
          | Fault.conn m => Sum.inr (onConnectionError c1 m)
          | Fault.other m => Sum.inr (onOtherError c1 m)
          | Fault.ok =>
            Sum.inl ⟨{ c1.st with policy := config_maxmemory_policy },
              c1.trace ++ [Event.call (RCall.set_maxmemory_policy config_maxmemory_policy)],
              true⟩
        else if maxmemory_policy = "noeviction" then
          Sum.inl ⟨c1.st, c1.trace ++ [Event.warn LogMsg.policyWarning], c1.changed⟩
        else Sum.inl c1) fun c2 =>
      match f.get_maxmemory with
      | Fault.conn m => onConnectionError c2 m
      | Fault.other m => onOtherError c2 m
      | Fault.ok =>
        let maxmemory := c2.st.maxmemory
        let c3 : Ctx := ⟨c2.st, c2.trace ++ [Event.call RCall.get_maxmemory], c2.changed⟩
        andThen
          (if 0 < config_maxmemory ∧ maxmemory ≠ config_maxmemory then
            match f.get_used_memory with
            | Fault.conn m => Sum.inr (onConnectionError c3 m)
            | Fault.other m => Sum.inr (onOtherError c3 m)
            | Fault.ok =>
              let used_memory := c3.st.usedMemory
              let c4 : Ctx :=
                ⟨c3.st, c3.trace ++ [Event.call RCall.get_used_memory], c3.changed⟩
              let c5 : Ctx :=
                if config_maxmemory < used_memory then
                  ⟨c4.st,
                   c4.trace ++ [Event.warn (LogMsg.usedMemoryWarning
                      (bytes_for_humans used_memory) (bytes_for_humans config_maxmemory))],
                   c4.changed⟩
                else c4
              match f.set_maxmemory with
              | Fault.conn m => Sum.inr (onConnectionError c5 m)
              | Fault.other m => Sum.inr (onOtherError c5 m)
              | Fault.ok =>
                Sum.inl ⟨{ c5.st with maxmemory := config_maxmemory },
                  c5.trace ++ [Event.call (RCall.set_maxmemory config_maxmemory)],
                  true⟩
          else if maxmemory = 0 then
            Sum.inl ⟨c3.st, c3.trace ++ [Event.warn LogMsg.noMaxmemoryWarning], c3.changed⟩
          else Sum.inl c3) fun c6 =>
        let c7 : Ctx :=
          if c6.changed = false ∧ (maxmemory = 0 ∨ maxmemory_policy = "noeviction") then
            ⟨c6.st, c6.trace ++ [Event.warn LogMsg.finalWarning], c6.changed⟩
          else c6
        ⟨c7.st, c7.trace, c7.changed, Outcome.normal⟩

/-- The `set_maxmemory_policy` arguments pushed during a run, in order. -/
def set_policy_calls (t : List Event) : List String :=
  t.filterMap fun e =>
    match e with
    | Event.call (RCall.set_maxmemory_policy p) => some p
    | _ => none

/-- The `set_maxmemory` arguments pushed during a run, in order. -/
def set_maxmemory_calls (t : List Event) : List Nat :=
  t.filterMap fun e =>
    match e with
    | Event.call (RCall.set_maxmemory m) => some m
    | _ => none

/-- Whether an event is a corrective write to the Redis server. -/
def isWriteEvent : Event → Bool
  | Event.call (RCall.set_maxmemory_policy _) => true
  | Event.call (RCall.set_maxmemory _) => true
  | _ => false

/-- The messages of the `ConnectionError` faults injected by `f`. -/
def Fault.connMsg : Fault → Option String
  | Fault.conn m => some m
  | _ => none

/-- All underlying `ConnectionError` messages available in `f`. -/
def connMsgs (f : Faults) : List String :=
  f.get_maxmemory_policy.connMsg.toList ++ f.set_maxmemory_policy.connMsg.toList ++
    f.get_maxmemory.connMsg.toList ++ f.get_used_memory.connMsg.toList ++
    f.set_maxmemory.connMsg.toList

/-- Proof-side description of the policy phase of a fault-free run:
resulting server state, events, and whether a corrective write was
pushed. -/
def policyStep (cp : String) (st : RedisState) : RedisState × List Event × Bool :=
  if ¬cp = "" ∧ ¬st.policy = cp then
    ({ st with policy := cp },
     [Event.call RCall.get_maxmemory_policy, Event.call (RCall.set_maxmemory_policy cp)],
     true)
  else if st.policy = "noeviction" then
    (st, [Event.call RCall.get_maxmemory_policy, Event.warn LogMsg.policyWarning], false)
  else (st, [Event.call RCall.get_maxmemory_policy], false)

/-- Proof-side description of the max-memory phase of a fault-free run. -/
def memoryStep (cm : Nat) (st : RedisState) : RedisState × List Event × Bool :=
  if 0 < cm ∧ ¬st.maxmemory = cm then
    ({ st with maxmemory := cm },
     [Event.call RCall.get_maxmemory, Event.call RCall.get_used_memory] ++
       (if cm < st.usedMemory then
         [Event.warn (LogMsg.usedMemoryWarning (bytes_for_humans st.usedMemory)
            (bytes_for_humans cm))]
        else []) ++ [Event.call (RCall.set_maxmemory cm)],
     true)
  else if st.maxmemory = 0 then
    (st, [Event.call RCall.get_maxmemory, Event.warn LogMsg.noMaxmemoryWarning], false)
  else (st, [Event.call RCall.get_maxmemory], false)

/-- Proof-side description of a whole fault-free run as the two phases
followed by the consolidated final warning. -/
def cleanRun (cm : Nat) (cp : String) (st : RedisState) : RunResult :=
  let p := policyStep cp st
  let m := memoryStep cm p.1
  let changed := p.2.2 || m.2.2
  ⟨m.1,
   p.2.1 ++ m.2.1 ++
     (if changed = false ∧ (st.maxmemory = 0 ∨ st.policy = "noeviction") then
       [Event.warn LogMsg.finalWarning]
      else []),
   changed,
   Outcome.normal⟩

/-- The last event of a run's trace, if any. -/
def lastEvent (t : List Event) : Option Event := t.reverse.head?

/-- The last two events of a run's trace, in order, if the trace has at
least two events. -/
def lastTwo (t : List Event) : Option (Event × Event) :=
  match t.reverse with
  | y :: x :: _ => some (x, y)
  | _ => none

theorem andThen_inl (c : Ctx) (k : Ctx → RunResult) : andThen (Sum.inl c) k = k c := rfl

theorem andThen_inr (r : RunResult) (k : Ctx → RunResult) : andThen (Sum.inr r) k = r := rfl

theorem andThen_ite (p : Prop) [Decidable p] (x y : Ctx ⊕ RunResult)
    (k : Ctx → RunResult) :
    andThen (if p then x else y) k = if p then andThen x k else andThen y k :=
  apply_ite (fun s => andThen s k) p x y

/-- A fault-free run against a redis backend is exactly the two-phase
clean run. -/
theorem check_redis_settings_noFaults_eq (cm : Nat) (cp : String) (st : RedisState) :
    check_redis_settings "redis" cm cp st Faults.noFaults = cleanRun cm cp st := by
  obtain ⟨pol, mm, um⟩ := st
  simp only [check_redis_settings, Faults.noFaults, cleanRun, policyStep, memoryStep,
    andThen_ite, andThen_inl, andThen_inr]
  simp only [ne_eq, not_true_eq_false, if_false]
  by_cases hPol : ¬cp = "" ∧ ¬pol = cp
  · simp only [if_pos hPol]
    by_cases hMem : 0 < cm ∧ ¬mm = cm
    · simp only [if_pos hMem]
      by_cases hUsed : cm < um
      · simp only [if_pos hUsed]; simp_all
      · simp only [if_neg hUsed]; simp_all
    · simp only [if_neg hMem]
      by_cases hZero : mm = 0
      · simp only [if_pos hZero]; simp_all
      · simp only [if_neg hZero]; simp_all
  · simp only [if_neg hPol]
    by_cases hNo : pol = "noeviction"
    · simp only [if_pos hNo]
      by_cases hMem : 0 < cm ∧ ¬mm = cm
      · simp only [if_pos hMem]
        by_cases hUsed : cm < um
        · simp only [if_pos hUsed]; simp_all
        · simp only [if_neg hUsed]; simp_all
      · simp only [if_neg hMem]
        by_cases hZero : mm = 0
        · simp only [if_pos hZero]; simp_all
        · simp only [if_neg hZero]; simp_all
    · simp only [if_neg hNo]
      by_cases hMem : 0 < cm ∧ ¬mm = cm
      · simp only [if_pos hMem]
        by_cases hUsed : cm < um
        · simp only [if_pos hUsed]; simp_all
        · simp only [if_neg hUsed]; simp_all
      · simp only [if_neg hMem]
        by_cases hZero : mm = 0
        · simp only [if_pos hZero]; simp_all
        · simp only [if_neg hZero]; simp_all

/-- C7: on a sqlite connection whose alias is the reserved notifications
name, a failing integrity probe (non-"ok" quick-check result or a raised
database error) triggers exactly one repair call, and the fixed tuning
script still executes afterward; for any other alias no integrity probe
and no repair occur; for a non-sqlite backend nothing is executed. -/
theorem activate_pragmas_per_connection_repair_spec (vendor connAlias : String)
    (probe : ProbeOutcome) :
    (vendor = "sqlite" → connAlias = NOTIFICATIONS → probeBroken probe = true →
      (activate_pragmas_per_connection vendor connAlias probe).count DBAction.repair = 1 ∧
      List.Sublist [DBAction.repair, DBAction.execScript SqlScript.connectionPragmas]
        (activate_pragmas_per_connection vendor connAlias probe)) ∧
    (vendor = "sqlite" → ¬connAlias = NOTIFICATIONS →
      ¬DBAction.quickCheck ∈ activate_pragmas_per_connection vendor connAlias probe ∧
      ¬DBAction.repair ∈ activate_pragmas_per_connection vendor connAlias probe) ∧
    (¬vendor = "sqlite" → activate_pragmas_per_connection vendor connAlias probe = []) := by
  refine ⟨?_, ?_, ?_⟩
  · intro hv ha hb
    subst hv; subst ha
    simp [activate_pragmas_per_connection, hb]
  · intro hv ha
    subst hv
    simp [activate_pragmas_per_connection, ha]
  · intro hv
    simp [activate_pragmas_per_connection, hv]

/-- Witness for C7 at concrete inputs: a notifications connection with a
failed probe, a non-notifications sqlite connection, and a postgresql
connection. -/
theorem activate_pragmas_per_connection_repair_spec_witness :
    ((activate_pragmas_per_connection "sqlite" "notifications" ProbeOutcome.dbError).count
        DBAction.repair = 1 ∧
      List.Sublist [DBAction.repair, DBAction.execScript SqlScript.connectionPragmas]
        (activate_pragmas_per_connection "sqlite" "notifications" ProbeOutcome.dbError)) ∧
    (¬DBAction.quickCheck ∈
        activate_pragmas_per_connection "sqlite" "default" (ProbeOutcome.result "ok") ∧
      ¬DBAction.repair ∈
        activate_pragmas_per_connection "sqlite" "default" (ProbeOutcome.result "ok")) ∧
    activate_pragmas_per_connection "postgresql" "default" (ProbeOutcome.result "ok") = [] :=
  ⟨(activate_pragmas_per_connection_repair_spec "sqlite" "notifications"
      ProbeOutcome.dbError).1 rfl rfl rfl,
   (activate_pragmas_per_connection_repair_spec "sqlite" "default"
      (ProbeOutcome.result "ok")).2.1 rfl (by decide),
   (activate_pragmas_per_connection_repair_spec "postgresql" "default"
      (ProbeOutcome.result "ok")).2.2 (by decide)⟩

/-- C8: the startup tuner executes the fixed startup script and then
closes the connection when the default connection is sqlite, and executes
nothing (and does not close) for any other backend. -/
theorem activate_pragmas_on_start_spec (vendor : String) :
    (vendor = "sqlite" → activate_pragmas_on_start vendor =
      [DBAction.execScript SqlScript.startPragmas, DBAction.closeConnection]) ∧
    (¬vendor = "sqlite" → activate_pragmas_on_start vendor = []) := by
  constructor
  · intro hv; simp [activate_pragmas_on_start, hv]
  · intro hv; simp [activate_pragmas_on_start, hv]

/-- Witness for C8 at "sqlite" and "postgresql". -/
theorem activate_pragmas_on_start_spec_witness :
    activate_pragmas_on_start "sqlite" =
      [DBAction.execScript SqlScript.startPragmas, DBAction.closeConnection] ∧
    activate_pragmas_on_start "postgresql" = [] :=
  ⟨(activate_pragmas_on_start_spec "sqlite").1 rfl,
   (activate_pragmas_on_start_spec "postgresql").2 (by decide)⟩

/-- C6: at the end of every run of `check_redis_settings` — whatever the
backend, configuration, server state and injected call behaviour — the
helper's `changed` flag is true exactly when the trace contains at least
one corrective write (`set_maxmemory_policy` or `set_maxmemory`). -/
theorem check_redis_settings_changed_iff_write (b : String) (cm : Nat) (cp : String)
    (st : RedisState) (f : Faults) :
    (check_redis_settings b cm cp st f).trace.any isWriteEvent =
      (check_redis_settings b cm cp st f).changed := by
  obtain ⟨pol, mm, um⟩ := st
  obtain ⟨f1, f2, f3, f4, f5⟩ := f
  by_cases hb : b = "redis"
  · subst hb
    cases f1 <;>
      simp only [check_redis_settings, onConnectionError, onOtherError,
        andThen_ite, andThen_inl, andThen_inr, ne_eq, not_true_eq_false, if_false]
    iterate 6
      (all_goals (try (repeat' split));
       all_goals (try (simp only [andThen_ite, andThen_inl, andThen_inr,
         onConnectionError, onOtherError])))
    all_goals simp_all [isWriteEvent]
  · simp [check_redis_settings, hb]

/-- C10: the reconciler is not atomic on error — concretely, with desired
policy "allkeys-lru" against live policy "noeviction" and a connection
error injected at the `get_maxmemory` call, the policy write has already
been pushed, the typed connection error is raised, and the policy write
persists on the server. -/
theorem check_redis_settings_not_atomic :
    Event.call (RCall.set_maxmemory_policy "allkeys-lru") ∈
      (check_redis_settings "redis" 0 "allkeys-lru" ⟨"noeviction", 0, 0⟩
        ⟨Fault.ok, Fault.ok, Fault.conn "boom", Fault.ok, Fault.ok⟩).trace ∧
    (check_redis_settings "redis" 0 "allkeys-lru" ⟨"noeviction", 0, 0⟩
        ⟨Fault.ok, Fault.ok, Fault.conn "boom", Fault.ok, Fault.ok⟩).outcome =
      Outcome.redisConnectionError "Unable to connect to Redis: boom" ∧
    (check_redis_settings "redis" 0 "allkeys-lru" ⟨"noeviction", 0, 0⟩
        ⟨Fault.ok, Fault.ok, Fault.conn "boom", Fault.ok, Fault.ok⟩).st.policy =
      "allkeys-lru" := by
  decide

theorem policyStep_policy_of_ne (cp : String) (st : RedisState) (h : ¬cp = "") :
    ((policyStep cp st).1).policy = cp := by
  simp only [policyStep]; split_ifs with h1 h2 <;> simp_all

theorem memoryStep_policy (cm : Nat) (st : RedisState) :
    ((memoryStep cm st).1).policy = st.policy := by
  simp only [memoryStep]; split_ifs <;> rfl

theorem memoryStep_maxmemory_of_pos (cm : Nat) (st : RedisState) (h : 0 < cm) :
    ((memoryStep cm st).1).maxmemory = cm := by
  simp only [memoryStep]; split_ifs with h1 h2 <;> simp_all

theorem cleanRun_st (cm : Nat) (cp : String) (st : RedisState) :
    (cleanRun cm cp st).st = (memoryStep cm (policyStep cp st).1).1 := rfl

theorem cleanRun_policy_of_ne (cm : Nat) (cp : String) (st : RedisState) (h : ¬cp = "") :
    (cleanRun cm cp st).st.policy = cp := by
  rw [cleanRun_st, memoryStep_policy, policyStep_policy_of_ne cp st h]

theorem cleanRun_maxmemory_of_pos (cm : Nat) (cp : String) (st : RedisState) (h : 0 < cm) :
    (cleanRun cm cp st).st.maxmemory = cm := by
  rw [cleanRun_st, memoryStep_maxmemory_of_pos _ _ h]

/-- A fault-free run in which neither the policy condition nor the
max-memory condition asks for a correction pushes no writes and leaves
the server state unchanged. -/
theorem cleanRun_stable (cm : Nat) (cp : String) (st : RedisState)
    (h1 : ¬(¬cp = "" ∧ ¬st.policy = cp)) (h2 : ¬(0 < cm ∧ ¬st.maxmemory = cm)) :
    set_policy_calls (cleanRun cm cp st).trace = [] ∧
    set_maxmemory_calls (cleanRun cm cp st).trace = [] ∧
    (cleanRun cm cp st).changed = false ∧
    (cleanRun cm cp st).st = st := by
  simp only [cleanRun, policyStep, if_neg h1]
  by_cases hNo : st.policy = "noeviction" <;>
    simp only [if_pos, if_neg, hNo, ite_true, ite_false, eq_self_iff_true,
      not_true_eq_false, if_false] <;>
    simp only [memoryStep, if_neg h2] <;>
    by_cases hZero : st.maxmemory = 0 <;>
      simp_all [set_policy_calls, set_maxmemory_calls]

/-- C1: in a fault-free run against a redis backend, a configured
non-empty policy differing from the live policy is pushed by exactly one
`set_maxmemory_policy` call and `changed` ends up true; an empty or
already-live configured policy causes no `set_maxmemory_policy` call, and
then the advisory policy warning is logged exactly when the live policy
is the server-default "noeviction". -/
theorem check_redis_settings_policy_reconciliation (cm : Nat) (cp : String)
    (st : RedisState) :
    (¬cp = "" ∧ ¬st.policy = cp →
      set_policy_calls (check_redis_settings "redis" cm cp st Faults.noFaults).trace = [cp] ∧
      (check_redis_settings "redis" cm cp st Faults.noFaults).changed = true) ∧
    (cp = "" ∨ st.policy = cp →
      set_policy_calls (check_redis_settings "redis" cm cp st Faults.noFaults).trace = [] ∧
      (Event.warn LogMsg.policyWarning ∈
          (check_redis_settings "redis" cm cp st Faults.noFaults).trace ↔
        st.policy = "noeviction")) := by
  rw [check_redis_settings_noFaults_eq]
  obtain ⟨pol, mm, um⟩ := st
  simp only [cleanRun, policyStep, memoryStep]
  constructor
  · rintro ⟨h1, h2⟩
    simp only [if_pos (And.intro h1 h2)]
    by_cases hMem : 0 < cm ∧ ¬mm = cm
    · simp only [if_pos hMem]
      by_cases hUsed : cm < um
      · simp only [if_pos hUsed]; simp_all [set_policy_calls]
      · simp only [if_neg hUsed]; simp_all [set_policy_calls]
    · simp only [if_neg hMem]
      by_cases hZero : mm = 0
      · simp only [if_pos hZero]; simp_all [set_policy_calls]
      · simp only [if_neg hZero]; simp_all [set_policy_calls]
  · intro h
    have hneg : ¬(¬cp = "" ∧ ¬pol = cp) := by
      rcases h with h | h <;> simp [h]
    simp only [if_neg hneg]
    by_cases hNo : pol = "noeviction"
    · simp only [if_pos hNo]
      by_cases hMem : 0 < cm ∧ ¬mm = cm
      · simp only [if_pos hMem]
        by_cases hUsed : cm < um
        · simp only [if_pos hUsed]; simp_all [set_policy_calls]
        · simp only [if_neg hUsed]; simp_all [set_policy_calls]
      · simp only [if_neg hMem]
        by_cases hZero : mm = 0
        · simp only [if_pos hZero]; simp_all [set_policy_calls]
        · simp only [if_neg hZero]; simp_all [set_policy_calls]
    · simp only [if_neg hNo]
      by_cases hMem : 0 < cm ∧ ¬mm = cm
      · simp only [if_pos hMem]
        by_cases hUsed : cm < um
        · simp only [if_pos hUsed]; simp_all [set_policy_calls]
        · simp only [if_neg hUsed]; simp_all [set_policy_calls]
      · simp only [if_neg hMem]
        by_cases hZero : mm = 0
        · simp only [if_pos hZero]; simp_all [set_policy_calls]
        · simp only [if_neg hZero]; simp_all [set_policy_calls]

/-- Witness for C1: a differing non-empty desired policy is pushed; with
no desired policy and a "noeviction" live policy the advisory warning is
logged and no write occurs. -/
theorem check_redis_settings_policy_reconciliation_witness :
    (set_policy_calls (check_redis_settings "redis" 0 "allkeys-lru"
        ⟨"noeviction", 0, 0⟩ Faults.noFaults).trace = ["allkeys-lru"] ∧
      (check_redis_settings "redis" 0 "allkeys-lru"
        ⟨"noeviction", 0, 0⟩ Faults.noFaults).changed = true) ∧
    (set_policy_calls (check_redis_settings "redis" 0 ""
        ⟨"noeviction", 0, 0⟩ Faults.noFaults).trace = [] ∧
      (Event.warn LogMsg.policyWarning ∈
          (check_redis_settings "redis" 0 "" ⟨"noeviction", 0, 0⟩ Faults.noFaults).trace ↔
        ("noeviction" : String) = "noeviction")) :=
  ⟨(check_redis_settings_policy_reconciliation 0 "allkeys-lru" ⟨"noeviction", 0, 0⟩).1
      (by decide),
   (check_redis_settings_policy_reconciliation 0 "" ⟨"noeviction", 0, 0⟩).2
      (by decide)⟩

/-- C2: in a fault-free run against a redis backend, a configured
maximum memory M > 0 differing from the live maximum causes used memory
to be fetched and exactly one `set_maxmemory M` call; when used memory
exceeds M the warning citing both humanized values precedes the
corrective call, and otherwise no such warning appears; when no
correction is needed there is no `set_maxmemory` call and the
no-maximum warning is logged exactly when the live maximum is 0. -/
theorem check_redis_settings_maxmemory_reconciliation (cm : Nat) (cp : String)
    (st : RedisState) :
    (0 < cm ∧ ¬st.maxmemory = cm →
      Event.call RCall.get_used_memory ∈
        (check_redis_settings "redis" cm cp st Faults.noFaults).trace ∧
      set_maxmemory_calls
        (check_redis_settings "redis" cm cp st Faults.noFaults).trace = [cm] ∧
      (cm < st.usedMemory →
        List.Sublist
          [Event.warn (LogMsg.usedMemoryWarning (bytes_for_humans st.usedMemory)
             (bytes_for_humans cm)),
           Event.call (RCall.set_maxmemory cm)]
          (check_redis_settings "redis" cm cp st Faults.noFaults).trace) ∧
      (¬cm < st.usedMemory → ∀ u c,
        ¬Event.warn (LogMsg.usedMemoryWarning u c) ∈
          (check_redis_settings "redis" cm cp st Faults.noFaults).trace)) ∧
    (¬(0 < cm ∧ ¬st.maxmemory = cm) →
      set_maxmemory_calls
        (check_redis_settings "redis" cm cp st Faults.noFaults).trace = [] ∧
      (Event.warn LogMsg.noMaxmemoryWarning ∈
          (check_redis_settings "redis" cm cp st Faults.noFaults).trace ↔
        st.maxmemory = 0)) := by
  rw [check_redis_settings_noFaults_eq]
  obtain ⟨pol, mm, um⟩ := st
  simp only [cleanRun, policyStep, memoryStep]
  constructor
  · intro hMem
    by_cases hPol : ¬cp = "" ∧ ¬pol = cp
    · simp only [if_pos hPol, if_pos hMem]
      by_cases hUsed : cm < um
      · simp only [if_pos hUsed]
        refine ⟨by simp, by simp [set_maxmemory_calls], fun _ => ?_, by simp_all⟩
        simp only [List.append_assoc]
        refine List.Sublist.cons _ (List.Sublist.cons _ (List.Sublist.cons _
          (List.Sublist.cons _ (List.Sublist.cons₂ _ (List.Sublist.cons₂ _
            (List.nil_sublist _))))))
      · simp only [if_neg hUsed]
        refine ⟨by simp, by simp [set_maxmemory_calls], by simp_all, by simp_all⟩
    · simp only [if_neg hPol]
      by_cases hNo : pol = "noeviction"
      · simp only [if_pos hNo, if_pos hMem]
        by_cases hUsed : cm < um
        · simp only [if_pos hUsed]
          refine ⟨by simp, by simp [set_maxmemory_calls], fun _ => ?_, by simp_all⟩
          simp only [List.append_assoc]
          refine List.Sublist.cons _ (List.Sublist.cons _ (List.Sublist.cons _
            (List.Sublist.cons _ (List.Sublist.cons₂ _ (List.Sublist.cons₂ _
              (List.nil_sublist _))))))
        · simp only [if_neg hUsed]
          refine ⟨by simp, by simp [set_maxmemory_calls], by simp_all, by simp_all⟩
      · simp only [if_neg hNo, if_pos hMem]
        by_cases hUsed : cm < um
        · simp only [if_pos hUsed]
          refine ⟨by simp, by simp [set_maxmemory_calls], fun _ => ?_, by simp_all⟩
          simp only [List.append_assoc]
          refine List.Sublist.cons _ (List.Sublist.cons _ (List.Sublist.cons _
            (List.Sublist.cons₂ _ (List.Sublist.cons₂ _ (List.nil_sublist _)))))
        · simp only [if_neg hUsed]
          refine ⟨by simp, by simp [set_maxmemory_calls], by simp_all, by simp_all⟩
  · intro hMem
    by_cases hPol : ¬cp = "" ∧ ¬pol = cp
    · simp only [if_pos hPol, if_neg hMem]
      by_cases hZero : mm = 0
      · simp only [if_pos hZero]; simp_all [set_maxmemory_calls]
      · simp only [if_neg hZero]; simp_all [set_maxmemory_calls]
    · simp only [if_neg hPol]
      by_cases hNo : pol = "noeviction"
      · simp only [if_pos hNo, if_neg hMem]
        by_cases hZero : mm = 0
        · simp only [if_pos hZero]; simp_all [set_maxmemory_calls]
        · simp only [if_neg hZero]; simp_all [set_maxmemory_calls]
      · simp only [if_neg hNo, if_neg hMem]
        by_cases hZero : mm = 0
        · simp only [if_pos hZero]; simp_all [set_maxmemory_calls]
        · simp only [if_neg hZero]; simp_all [set_maxmemory_calls]

/-- Witness for C2: a needed correction with used memory above the new
maximum (warning before the write), and a run with no desired maximum
against an unlimited server (no write, no-maximum warning logged). -/
theorem check_redis_settings_maxmemory_reconciliation_witness :
    (Event.call RCall.get_used_memory ∈
        (check_redis_settings "redis" 500 "" ⟨"allkeys-lru", 0, 1000⟩
          Faults.noFaults).trace ∧
      set_maxmemory_calls (check_redis_settings "redis" 500 ""
        ⟨"allkeys-lru", 0, 1000⟩ Faults.noFaults).trace = [500]) ∧
    List.Sublist
      [Event.warn (LogMsg.usedMemoryWarning (bytes_for_humans 1000)
         (bytes_for_humans 500)),
       Event.call (RCall.set_maxmemory 500)]
      (check_redis_settings "redis" 500 "" ⟨"allkeys-lru", 0, 1000⟩
        Faults.noFaults).trace ∧
    (set_maxmemory_calls (check_redis_settings "redis" 0 ""
        ⟨"allkeys-lru", 0, 5⟩ Faults.noFaults).trace = [] ∧
      (Event.warn LogMsg.noMaxmemoryWarning ∈
          (check_redis_settings "redis" 0 "" ⟨"allkeys-lru", 0, 5⟩
            Faults.noFaults).trace ↔ (0 : Nat) = 0)) :=
  ⟨⟨((check_redis_settings_maxmemory_reconciliation 500 ""
        ⟨"allkeys-lru", 0, 1000⟩).1 (by decide)).1,
    ((check_redis_settings_maxmemory_reconciliation 500 ""
        ⟨"allkeys-lru", 0, 1000⟩).1 (by decide)).2.1⟩,
   ((check_redis_settings_maxmemory_reconciliation 500 ""
        ⟨"allkeys-lru", 0, 1000⟩).1 (by decide)).2.2.1 (by decide),
   (check_redis_settings_maxmemory_reconciliation 0 ""
        ⟨"allkeys-lru", 0, 5⟩).2 (by decide)⟩

/-- C3: in a fault-free run against a redis backend, the consolidated
final warning is logged exactly once when no corrective write happened
and the final live state still has an unlimited maximum or the default
"noeviction" policy, and is not logged otherwise. -/
theorem check_redis_settings_final_warning_iff (cm : Nat) (cp : String)
    (st : RedisState) :
    (check_redis_settings "redis" cm cp st Faults.noFaults).trace.count
        (Event.warn LogMsg.finalWarning) =
      if (check_redis_settings "redis" cm cp st Faults.noFaults).changed = false ∧
          ((check_redis_settings "redis" cm cp st Faults.noFaults).st.maxmemory = 0 ∨
           (check_redis_settings "redis" cm cp st Faults.noFaults).st.policy = "noeviction")
        then 1 else 0 := by
  rw [check_redis_settings_noFaults_eq]
  obtain ⟨pol, mm, um⟩ := st
  simp only [cleanRun, policyStep, memoryStep]
  by_cases hPol : ¬cp = "" ∧ ¬pol = cp
  · simp only [if_pos hPol]
    by_cases hMem : 0 < cm ∧ ¬mm = cm
    · simp only [if_pos hMem]
      by_cases hUsed : cm < um
      · simp only [if_pos hUsed]; simp_all [List.count_append]
      · simp only [if_neg hUsed]; simp_all [List.count_append]
    · simp only [if_neg hMem]
      by_cases hZero : mm = 0
      · simp only [if_pos hZero]; simp_all [List.count_append]
      · simp only [if_neg hZero]; simp_all [List.count_append]
  · simp only [if_neg hPol]
    by_cases hNo : pol = "noeviction"
    · simp only [if_pos hNo]
      by_cases hMem : 0 < cm ∧ ¬mm = cm
      · simp only [if_pos hMem]
        by_cases hUsed : cm < um
        · simp only [if_pos hUsed]; simp_all [List.count_append]
        · simp only [if_neg hUsed]; simp_all [List.count_append]
      · simp only [if_neg hMem]
        by_cases hZero : mm = 0
        · simp only [if_pos hZero]; simp_all [List.count_append]
        · simp only [if_neg hZero]; simp_all [List.count_append]
    · simp only [if_neg hNo]
      by_cases hMem : 0 < cm ∧ ¬mm = cm
      · simp only [if_pos hMem]
        by_cases hUsed : cm < um
        · simp only [if_pos hUsed]; simp_all [List.count_append]
        · simp only [if_neg hUsed]; simp_all [List.count_append]
      · simp only [if_neg hMem]
        by_cases hZero : mm = 0
        · simp only [if_pos hZero]; simp_all [List.count_append]
        · simp only [if_neg hZero]; simp_all [List.count_append]

/-- C9: the reconciler is idempotent — a second fault-free run against a
server carrying the policy and maximum of a first run's final state (for
any used memory) performs zero corrective writes, ends with
`changed = false`, and leaves the server state unchanged. -/
theorem check_redis_settings_idempotent (cm : Nat) (cp : String) (st : RedisState)
    (used2 : Nat) :
    set_policy_calls (check_redis_settings "redis" cm cp
        ⟨(check_redis_settings "redis" cm cp st Faults.noFaults).st.policy,
         (check_redis_settings "redis" cm cp st Faults.noFaults).st.maxmemory,
         used2⟩ Faults.noFaults).trace = [] ∧
    set_maxmemory_calls (check_redis_settings "redis" cm cp
        ⟨(check_redis_settings "redis" cm cp st Faults.noFaults).st.policy,
         (check_redis_settings "redis" cm cp st Faults.noFaults).st.maxmemory,
         used2⟩ Faults.noFaults).trace = [] ∧
    (check_redis_settings "redis" cm cp
        ⟨(check_redis_settings "redis" cm cp st Faults.noFaults).st.policy,
         (check_redis_settings "redis" cm cp st Faults.noFaults).st.maxmemory,
         used2⟩ Faults.noFaults).changed = false ∧
    (check_redis_settings "redis" cm cp
        ⟨(check_redis_settings "redis" cm cp st Faults.noFaults).st.policy,
         (check_redis_settings "redis" cm cp st Faults.noFaults).st.maxmemory,
         used2⟩ Faults.noFaults).st =
      ⟨(check_redis_settings "redis" cm cp st Faults.noFaults).st.policy,
       (check_redis_settings "redis" cm cp st Faults.noFaults).st.maxmemory,
       used2⟩ := by
  simp only [check_redis_settings_noFaults_eq]
  refine cleanRun_stable cm cp _ ?_ ?_
  · by_cases hcp : cp = ""
    · simp [hcp]
    · simp only [not_and, not_not]
      intro _
      exact cleanRun_policy_of_ne cm cp st hcp
  · by_cases hcm : 0 < cm
    · simp only [not_and, not_not]
      intro _
      exact cleanRun_maxmemory_of_pos cm cp st hcm
    · simp [hcm]

set_option maxHeartbeats 1600000 in
/-- C4: whenever a run of the reconciler raises the typed
`RedisConnectionError`, its message wraps the underlying connection
error's message, exactly one warning carrying that message was logged,
and it is the last event (logged first, then the error raised with
nothing after it); conversely, whenever the connection warning was
logged, the typed error is in fact raised — it is never swallowed by the
broad handler. -/
theorem check_redis_settings_connection_error_propagates (b : String) (cm : Nat)
    (cp : String) (st : RedisState) (f : Faults) :
    ∀ m,
      ((check_redis_settings b cm cp st f).outcome = Outcome.redisConnectionError m →
        (∃ orig, orig ∈ connMsgs f ∧ m = "Unable to connect to Redis: " ++ orig) ∧
        (check_redis_settings b cm cp st f).trace.count
          (Event.warn (LogMsg.connWarning m)) = 1 ∧
        lastEvent (check_redis_settings b cm cp st f).trace =
          some (Event.warn (LogMsg.connWarning m))) ∧
      (Event.warn (LogMsg.connWarning m) ∈ (check_redis_settings b cm cp st f).trace →
        (check_redis_settings b cm cp st f).outcome = Outcome.redisConnectionError m) := by
  obtain ⟨pol, mm, um⟩ := st
  obtain ⟨f1, f2, f3, f4, f5⟩ := f
  by_cases hb : b = "redis"
  · subst hb
    cases f1 <;>
      simp only [check_redis_settings, onConnectionError, onOtherError,
        andThen_ite, andThen_inl, andThen_inr, ne_eq, not_true_eq_false, if_false]
    iterate 6
      (all_goals (try (repeat' split));
       all_goals (try (simp only [andThen_ite, andThen_inl, andThen_inr,
         onConnectionError, onOtherError])))
    all_goals simp_all [connMsgs, Fault.connMsg, lastEvent, List.count_cons]
    all_goals (refine ⟨_, ?_, rfl⟩; tauto)
  · simp [check_redis_settings, hb]

/-- Witness for C4: with a connection error injected at the first client
call, the typed error is raised wrapping the message, after exactly one
warning that is the trace's last event. -/
theorem check_redis_settings_connection_error_propagates_witness :
    (∃ orig, orig ∈ connMsgs ⟨Fault.conn "down", Fault.ok, Fault.ok, Fault.ok, Fault.ok⟩ ∧
      "Unable to connect to Redis: down" = "Unable to connect to Redis: " ++ orig) ∧
    (check_redis_settings "redis" 0 "" ⟨"x", 0, 0⟩
        ⟨Fault.conn "down", Fault.ok, Fault.ok, Fault.ok, Fault.ok⟩).trace.count
      (Event.warn (LogMsg.connWarning "Unable to connect to Redis: down")) = 1 ∧
    lastEvent (check_redis_settings "redis" 0 "" ⟨"x", 0, 0⟩
        ⟨Fault.conn "down", Fault.ok, Fault.ok, Fault.ok, Fault.ok⟩).trace =
      some (Event.warn (LogMsg.connWarning "Unable to connect to Redis: down")) :=
  (check_redis_settings_connection_error_propagates "redis" 0 "" ⟨"x", 0, 0⟩
      ⟨Fault.conn "down", Fault.ok, Fault.ok, Fault.ok, Fault.ok⟩
      "Unable to connect to Redis: down").1 (by decide)

set_option maxHeartbeats 1600000 in
/-- C5: whenever the broad exception handler of the reconciler runs (its
exception-detail record is in the trace), no exception escapes — the
outcome is a normal return — and exactly one fixed warning plus exactly
one detail record were logged, as the final two events of the run. -/
theorem check_redis_settings_other_exception_swallowed (b : String) (cm : Nat)
    (cp : String) (st : RedisState) (f : Faults) :
    ∀ md,
      (Event.warn (LogMsg.exceptionDetail md) ∈ (check_redis_settings b cm cp st f).trace →
        (check_redis_settings b cm cp st f).outcome = Outcome.normal ∧
        (check_redis_settings b cm cp st f).trace.count
          (Event.warn LogMsg.uncheckedWarning) = 1 ∧
        (check_redis_settings b cm cp st f).trace.count
          (Event.warn (LogMsg.exceptionDetail md)) = 1 ∧
        lastTwo (check_redis_settings b cm cp st f).trace =
          some (Event.warn LogMsg.uncheckedWarning,
                Event.warn (LogMsg.exceptionDetail md))) ∧
      (Event.warn LogMsg.uncheckedWarning ∈ (check_redis_settings b cm cp st f).trace →
        (check_redis_settings b cm cp st f).outcome = Outcome.normal ∧
        (check_redis_settings b cm cp st f).trace.count
          (Event.warn LogMsg.uncheckedWarning) = 1) := by
  obtain ⟨pol, mm, um⟩ := st
  obtain ⟨f1, f2, f3, f4, f5⟩ := f
  by_cases hb : b = "redis"
  · subst hb
    cases f1 <;>
      simp only [check_redis_settings, onConnectionError, onOtherError,
        andThen_ite, andThen_inl, andThen_inr, ne_eq, not_true_eq_false, if_false]
    iterate 6
      (all_goals (try (repeat' split));
       all_goals (try (simp only [andThen_ite, andThen_inl, andThen_inr,
         onConnectionError, onOtherError])))
    all_goals simp_all [lastTwo, List.count_cons]
  · simp [check_redis_settings, hb]

/-- Witness for C5: with an unexpected exception injected at the first
client call, the run returns normally after logging exactly the fixed
warning and the exception detail as its two events. -/
theorem check_redis_settings_other_exception_swallowed_witness :
    (check_redis_settings "redis" 0 "" ⟨"x", 0, 0⟩
        ⟨Fault.other "weird", Fault.ok, Fault.ok, Fault.ok, Fault.ok⟩).outcome =
      Outcome.normal ∧
    (check_redis_settings "redis" 0 "" ⟨"x", 0, 0⟩
        ⟨Fault.other "weird", Fault.ok, Fault.ok, Fault.ok, Fault.ok⟩).trace.count
      (Event.warn LogMsg.uncheckedWarning) = 1 ∧
    (check_redis_settings "redis" 0 "" ⟨"x", 0, 0⟩
        ⟨Fault.other "weird", Fault.ok, Fault.ok, Fault.ok, Fault.ok⟩).trace.count
      (Event.warn (LogMsg.exceptionDetail "weird")) = 1 ∧
    lastTwo (check_redis_settings "redis" 0 "" ⟨"x", 0, 0⟩
        ⟨Fault.other "weird", Fault.ok, Fault.ok, Fault.ok, Fault.ok⟩).trace =
      some (Event.warn LogMsg.uncheckedWarning,
            Event.warn (LogMsg.exceptionDetail "weird")) :=
  (check_redis_settings_other_exception_swallowed "redis" 0 "" ⟨"x", 0, 0⟩
      ⟨Fault.other "weird", Fault.ok, Fault.ok, Fault.ok, Fault.ok⟩ "weird").1
    (by decide)
